import Mathlib

/-!
Shallow embedding of the partition-table decoder of `src/disk_analyzer.py`
(MBR/GPT table-type detection, MBR and GPT entry decoding, the partition-type
catalogs and the human-readable size formatter), together with theorems that
check the specification's claims against it.

Modelling conventions: Python byte strings are `List Nat` (each element one
byte value), Python integers are `Nat`/`Int` (Python integers are unbounded,
so no wrap-around is modelled), and Python slices are clamping slices.

The float chain of `_bytes_to_human` is modelled at two levels.
`bytesToHuman` is the exact-rational idealization (used for the `size_human`
strings carried inside entries); it coincides with the program whenever the
byte count is exactly representable as an IEEE-754 double, in particular for
every count up to `2 ^ 53`.  `bytesToHumanFloat` is the faithful model of the
program on an integer byte count: the count is first rounded to the nearest
double (`floatDouble`: 53 significant bits, ties to even) exactly as
`n / 1024.0` converts it, and from there every further `/ 1024.0` is an exact
exponent decrement (no rounding, no underflow at these magnitudes), every
`< 1024.0` comparison is exact, and `f"{x:.2f}"` rounds the represented value
to two decimals with ties to even — all exact functions of the rational value
the double represents, so rational arithmetic on `floatDouble n` reproduces
the program's output bit-for-bit.
-/

set_option maxRecDepth 100000

namespace DiskAnalyzer

/-- Python slice `l[start : start + len]` (clamping at both ends). -/
def slice (l : List Nat) (start len : Nat) : List Nat :=
  (l.drop start).take len

/-- Little-endian value of a byte list, as `struct.unpack` with `<I` (4 bytes)
or `<Q` (8 bytes) computes it on the exact-length slices the decoder feeds it. -/
def leVal : List Nat → Nat
  | [] => 0
  | b :: rest => b + 256 * leVal rest

/-- Upper-case hex digit for a value below 16. -/
def hexDigit (n : Nat) : Char :=
  if n < 10 then Char.ofNat (48 + n) else Char.ofNat (55 + n)

/-- Lower-case hex digit for a value below 16. -/
def hexDigitLower (n : Nat) : Char :=
  if n < 10 then Char.ofNat (48 + n) else Char.ofNat (87 + n)

/-- Python `f"{b:02X}"` for a byte value (`b < 256`): exactly two upper-case
hex digits.  All type codes and GUID bytes the decoder formats are single
bytes, for which the `02X` format is exactly two digits. -/
def hex2 (n : Nat) : String :=
  String.mk [hexDigit (n / 16), hexDigit (n % 16)]

/-- Two lower-case hex digits of a byte value. -/
def hex2Lower (n : Nat) : String :=
  String.mk [hexDigitLower (n / 16), hexDigitLower (n % 16)]

/-- `binascii.hexlify(bs).decode('ascii')` (lower-case hex). -/
def hexlify (bs : List Nat) : String :=
  String.join (bs.map hex2Lower)

/-- `binascii.hexlify(bs).decode('ascii').upper()`, as used for GPT type GUIDs. -/
def hexlifyUpper (bs : List Nat) : String :=
  String.join (bs.map hex2)

/-- Renders `n` hundredths as a fixed-point decimal with two digits after the
point (`123` becomes `"1.23"`). -/
def format2Nat (n : Nat) : String :=
  toString (n / 100) ++ "." ++ (if n % 100 < 10 then "0" else "") ++ toString (n % 100)

/-- Nearest integer to `100 * q`, ties to even: the rounding performed by
`f"{x:.2f}"` (on the exactly representable values the formatter meets). -/
def round2 (q : ℚ) : Int :=
  let x := q * 100
  let f := Int.floor x
  if x - f < 1 / 2 then f
  else if x - f > 1 / 2 then f + 1
  else if f % 2 = 0 then f else f + 1

/-- Python `f"{x:.2f}"`, the float modelled as an exact rational. -/
def format2 (q : ℚ) : String :=
  let n := round2 q
  if n < 0 then "-" ++ format2Nat (-n).toNat else format2Nat n.toNat

/-- The unit loop of `DiskAnalyzer._bytes_to_human`: try each unit in order,
dividing by 1024, and fall back to `"PB"` after the last unit. -/
def bytesToHumanGo : ℚ → List String → String
  | v, [] => format2 v ++ " PB"
  | v, u :: us => if v < 1024 then format2 v ++ " " ++ u else bytesToHumanGo (v / 1024) us

/-- `DiskAnalyzer._bytes_to_human` with the floats idealized as exact
rationals.  Faithful whenever the byte count is exactly representable as a
double — in particular for every magnitude up to `2 ^ 53`; for larger integer
counts the program first rounds the count to 53 significant bits, which
`bytesToHumanFloat` below models. -/
def bytesToHuman (n : Int) : String :=
  bytesToHumanGo (n : ℚ) ["B", "KB", "MB", "GB", "TB"]

/-- Round `n` to the nearest multiple of `m`, ties to the even multiple (the
IEEE-754 round-to-nearest-even rule at granularity `m`). -/
def roundToMultiple (n m : Nat) : Nat :=
  let q := n / m
  let r := n % m
  if 2 * r < m then q * m
  else if m < 2 * r then (q + 1) * m
  else if q % 2 = 0 then q * m else (q + 1) * m

/-- The power of two `2 ^ e` with `n / 2 ^ e < 2 ^ 53`: the unit in the last
place of the doubles around `n` (the first argument is fuel). -/
def ulpAux : Nat → Nat → Nat
  | 0, _ => 1
  | fuel + 1, n => if n < 2 ^ 53 then 1 else 2 * ulpAux fuel (n / 2)

/-- The value of the IEEE-754 double nearest to the integer `n` (ties to
even), as `float(n)` / `PyLong_AsDouble` computes it: `n` rounded to 53
significant bits.  Exact (`floatDouble n = n`) for every `n ≤ 2 ^ 53`. -/
def floatDouble (n : Nat) : Nat :=
  roundToMultiple n (ulpAux n n)

/-- `DiskAnalyzer._bytes_to_human` on an integer byte count, with the
program's initial int-to-double rounding modelled by `floatDouble`; every
subsequent `/ 1024.0`, every `< 1024.0` comparison and the final two-decimal
formatting are exact operations on the represented value (see the module
docstring), so this reproduces the program's printed string. -/
def bytesToHumanFloat (n : Nat) : String :=
  bytesToHumanGo ((floatDouble n : ℚ)) ["B", "KB", "MB", "GB", "TB"]

/-- The `partition_types` dictionary of `_get_partition_description`. -/
def partitionTypes : List (Nat × String) := [
  (0x00, "Пустой"),
  (0x01, "FAT12"),
  (0x04, "FAT16 <32MB"),
  (0x05, "Расширенный"),
  (0x06, "FAT16 >32MB"),
  (0x07, "NTFS/HPFS/exFAT"),
  (0x0B, "FAT32 (CHS)"),
  (0x0C, "FAT32 (LBA)"),
  (0x0E, "FAT16 (LBA)"),
  (0x0F, "Расширенный (LBA)"),
  (0x11, "Скрытый FAT12"),
  (0x14, "Скрытый FAT16 <32MB"),
  (0x16, "Скрытый FAT16 >32MB"),
  (0x1B, "Скрытый FAT32 (CHS)"),
  (0x1C, "Скрытый FAT32 (LBA)"),
  (0x1E, "Скрытый FAT16 (LBA)"),
  (0x82, "Linux Swap"),
  (0x83, "Linux Native"),
  (0x85, "Linux Extended"),
  (0x8E, "Linux LVM"),
  (0xA5, "FreeBSD"),
  (0xA6, "OpenBSD"),
  (0xA8, "macOS Darwin UFS"),
  (0xA9, "NetBSD"),
  (0xAB, "macOS Darwin Boot"),
  (0xAF, "macOS Darwin HFS/HFS+"),
  (0xB7, "BSDI"),
  (0xB8, "BSDI Swap"),
  (0xEE, "GPT защитный MBR"),
  (0xEF, "EFI System Partition"),
  (0xFC, "VMWare VMFS"),
  (0xFD, "Linux RAID")]

/-- `DiskAnalyzer._get_partition_description`: dictionary get with the
`"Неизвестный (0x..)"` fallback. -/
def getPartitionDescription (type_code : Nat) : String :=
  (partitionTypes.lookup type_code).getD ("Неизвестный (0x" ++ hex2 type_code ++ ")")

/-- The `gpt_types` dictionary of `_get_gpt_partition_type`. -/
def gptTypes : List (String × String) := [
  ("C12A7328F81F11D2BA4B00A0C93EC93B", "EFI System Partition"),
  ("E3C9E3160B5C4DB8817DF92DF00215AE", "Microsoft Reserved"),
  ("EBD0A0A2B9E5443387C068B6B72699C7", "Microsoft Basic Data"),
  ("5808C8AA7E8F42E085FE4F984F2F9F50", "Linux LVM"),
  ("0FC63DAF848347728E793D69D8477DE4", "Linux Filesystem"),
  ("0657FD6DA4AB43C484E50933C84B4F4F", "Linux Swap"),
  ("8DA63339000011C2950003FF48464D45", "Linux Reserved"),
  ("83BD6B9D7F418719B69478DDA015F979", "Apple APFS"),
  ("48465300000011AAAA1100306543ECAC", "Apple HFS+"),
  ("7C3457EF000011AA8AA3005195CAF3CA", "Apple APFS Container")]

/-- `DiskAnalyzer._get_gpt_partition_type`: upper-case hexlify the raw
16 GUID bytes, dictionary get with the `"Unknown GUID (...)"` fallback that
embeds the first 8 hex characters (4 bytes). -/
def getGptPartitionType (guid_bytes : List Nat) : String :=
  let guid_str := hexlifyUpper guid_bytes
  (gptTypes.lookup guid_str).getD ("Unknown GUID (" ++ guid_str.take 8 ++ "...)")

/-- The `PartitionType` enum of the source (exactly three members). -/
inductive PartitionType where
  | MBR
  | GPT
  | UNKNOWN
  deriving DecidableEq, Repr

/-- The `PartitionEntry` dataclass.  Fields that Python computes by possibly
negative integer arithmetic (`end_sector`, `size_sectors`, `size_bytes` for
GPT) are `Int`. -/
structure PartitionEntry where
  number : Nat
  type : String
  type_code : Nat
  start_sector : Nat
  size_sectors : Int
  end_sector : Int
  size_bytes : Int
  size_human : String
  guid : String := ""
  name : String := ""
  attributes : Nat := 0
  is_active : Bool := false
  deriving DecidableEq, Repr, Inhabited

/-- Pair bytes into little-endian 16-bit code units; a trailing odd byte is
an encoding error and is dropped, as `errors='ignore'` does. -/
def utf16Units : List Nat → List Nat
  | b0 :: b1 :: rest => (b0 + 256 * b1) :: utf16Units rest
  | _ => []

/-- Decode UTF-16 code units to characters: combine surrogate pairs, drop
lone surrogates (`errors='ignore'`). -/
def utf16Chars : List Nat → List Char
  | [] => []
  | [u] => if 0xD800 ≤ u ∧ u < 0xE000 then [] else [Char.ofNat u]
  | u :: v :: rest =>
    if 0xD800 ≤ u ∧ u < 0xDC00 then
      if 0xDC00 ≤ v ∧ v < 0xE000 then
        Char.ofNat (0x10000 + (u - 0xD800) * 0x400 + (v - 0xDC00)) :: utf16Chars rest
      else utf16Chars (v :: rest)
    else if 0xDC00 ≤ u ∧ u < 0xE000 then utf16Chars (v :: rest)
    else Char.ofNat u :: utf16Chars (v :: rest)

/-- Python `str.strip(chr(0))`: remove NUL characters from both ends. -/
def stripNulls (cs : List Char) : List Char :=
  ((cs.dropWhile (· == Char.ofNat 0)).reverse.dropWhile (· == Char.ofNat 0)).reverse

/-- `bs.decode('utf-16le', errors='ignore').strip(chr(0))`. -/
def utf16leString (bs : List Nat) : String :=
  String.mk (stripNulls (utf16Chars (utf16Units bs)))

/-- One iteration of the `_analyze_mbr` slot loop: decode 16-byte slot `i`
(0-based); `none` models the two `continue`s (short slice, empty sentinel). -/
def parseMbrSlot (sector : List Nat) (sector_size : Nat) (i : Nat) :
    Option PartitionEntry :=
  let partition_data := slice sector (446 + i * 16) 16
  if partition_data.length < 16 then none
  else
    let status := partition_data.getD 0 0
    let type_code := partition_data.getD 4 0
    let lba_start := leVal (slice partition_data 8 4)
    let num_sectors := leVal (slice partition_data 12 4)
    if type_code = 0 ∧ lba_start = 0 then none
    else
      let size_bytes := num_sectors * sector_size
      some {
        number := i + 1
        type := getPartitionDescription type_code
        type_code := type_code
        start_sector := lba_start
        size_sectors := (num_sectors : Int)
        end_sector := (lba_start : Int) + (num_sectors : Int) - 1
        size_bytes := (size_bytes : Int)
        size_human := bytesToHuman (size_bytes : Int)
        is_active := status == 0x80 }

/-- `DiskAnalyzer._analyze_mbr`: the list of partition entries the MBR pass
appends to `self.partitions`, in slot order. -/
def entriesMbr (sector : List Nat) (sector_size : Nat) : List PartitionEntry :=
  (List.range 4).filterMap (parseMbrSlot sector sector_size)

/-- The body of the `_analyze_gpt` entry loop for one record that passed the
length check; `none` models the two `continue`s (all-zero type GUID,
`first_lba == 0`). -/
def decodeGptRecord (entry_data : List Nat) (partition_num sector_size : Nat) :
    Option PartitionEntry :=
  let partition_type_guid := slice entry_data 0 16
  if partition_type_guid.all (· == 0) then none
  else
    let partition_guid := slice entry_data 16 16
    let first_lba := leVal (slice entry_data 32 8)
    let last_lba := leVal (slice entry_data 40 8)
    let attributes := leVal (slice entry_data 48 8)
    let partition_name := utf16leString (slice entry_data 56 72)
    if first_lba = 0 then none
    else
      let num_sectors : Int := (last_lba : Int) - (first_lba : Int) + 1
      let size_bytes : Int := num_sectors * (sector_size : Int)
      some {
        number := partition_num
        type := getGptPartitionType partition_type_guid
        type_code := 0
        start_sector := first_lba
        size_sectors := num_sectors
        end_sector := (last_lba : Int)
        size_bytes := size_bytes
        size_human := bytesToHuman size_bytes
        guid := hexlify partition_guid
        name := partition_name
        attributes := attributes }

/-- The `_analyze_gpt` loop over the entry array.  Record `i` occupies the
bytes from `table_off + i * entry_size`; a record of fewer than 128 bytes
stops the walk (`break`); skipped records do not advance `partition_num`. -/
def gptWalk (image : List Nat) (table_off entry_size sector_size : Nat) :
    Nat → Nat → Nat → List PartitionEntry
  | 0, _, _ => []
  | n + 1, i, partition_num =>
    let entry_data := slice image (table_off + i * entry_size) entry_size
    if entry_data.length < 128 then []
    else
      match decodeGptRecord entry_data partition_num sector_size with
      | none => gptWalk image table_off entry_size sector_size n (i + 1) partition_num
      | some e =>
        e :: gptWalk image table_off entry_size sector_size n (i + 1) (partition_num + 1)

/-- The GPT header bytes: `f.seek(sector_size); f.read(sector_size)`. -/
def gptHeader (image : List Nat) (sector_size : Nat) : List Nat :=
  slice image sector_size sector_size

/-- Header field `partition_entries_lba` (offset 72, 8 bytes LE). -/
def gptEntriesLba (image : List Nat) (sector_size : Nat) : Nat :=
  leVal (slice (gptHeader image sector_size) 72 8)

/-- Header field `num_partition_entries` (offset 80, 4 bytes LE). -/
def gptNumEntries (image : List Nat) (sector_size : Nat) : Nat :=
  leVal (slice (gptHeader image sector_size) 80 4)

/-- Header field `partition_entry_size` (offset 84, 4 bytes LE). -/
def gptDeclaredEntrySize (image : List Nat) (sector_size : Nat) : Nat :=
  leVal (slice (gptHeader image sector_size) 84 4)

/-- `DiskAnalyzer._analyze_gpt`: the entries the GPT pass appends to
`self.partitions`; none when the header read returns fewer than 92 bytes
(the early `return`). -/
def entriesGpt (image : List Nat) (sector_size : Nat) : List PartitionEntry :=
  if (gptHeader image sector_size).length < 92 then []
  else
    gptWalk image (gptEntriesLba image sector_size * sector_size)
      (gptDeclaredEntrySize image sector_size) sector_size
      (gptNumEntries image sector_size) 0 1

/-- The bytes of the ASCII literal `EFI PART`. -/
def asciiEfiPart : List Nat := [0x45, 0x46, 0x49, 0x20, 0x50, 0x41, 0x52, 0x54]

/-- `DiskAnalyzer._detect_partition_type`.  `none` models the final `else`
branch, which leaves `self.partition_type` unchanged.  Note that the GPT
signature probe slices `sector[0x200:0x208]` out of the same buffer that
holds only the first read (of `sector_size` bytes).  Faithful for sectors of
at least 512 bytes; shorter reads raise IndexError inside `analyze`, which is
modelled there. -/
def detectPartitionType (sector : List Nat) : Option PartitionType :=
  if sector.getD 510 0 = 0x55 ∧ sector.getD 511 0 = 0xAA then
    if sector.getD 450 0 = 0xEE then some PartitionType.GPT
    else some PartitionType.MBR
  else if slice sector 0x200 8 = asciiEfiPart then some PartitionType.GPT
  else none

/-- The mutable fields of a `DiskAnalyzer` instance that the decoding path
touches (`__init__` defaults). -/
structure AnalyzerState where
  partition_type : PartitionType := PartitionType.UNKNOWN
  partitions : List PartitionEntry := []
  boot_signature : String := ""
  disk_size : Nat := 0
  deriving DecidableEq, Repr

/-- A freshly constructed analyzer. -/
def initState : AnalyzerState := {}

/-- `DiskAnalyzer.analyze` on an available image: returns the boolean result
and the updated instance state.  A first read shorter than `sector_size`
returns `False`; a `sector_size` below 512 makes the index accesses
`sector[510]`/`sector[511]` in `_detect_partition_type` raise IndexError,
which the `except` clause turns into `False` with the state unchanged (for
`sector_size == 511` the non-raising paths also return `False` with the same
state, so the single guard is exact).  Rendering-only steps (hex dump,
first-sector printout) read nothing into the state and are omitted. -/
def analyze (st : AnalyzerState) (image : List Nat) (sector_size : Nat) :
    Bool × AnalyzerState :=
  let st1 := { st with disk_size := image.length }
  let sector0 := image.take sector_size
  if sector0.length < sector_size then (false, st1)
  else if sector_size < 512 then (false, st1)
  else
    let st2 :=
      if sector0.getD 510 0 = 0x55 ∧ sector0.getD 511 0 = 0xAA then
        { st1 with boot_signature := "55 AA" }
      else st1
    let st3 :=
      match detectPartitionType sector0 with
      | some t => { st2 with partition_type := t }
      | none => st2
    match st3.partition_type with
    | PartitionType.MBR =>
      (true, { st3 with partitions := st3.partitions ++ entriesMbr sector0 sector_size })
    | PartitionType.GPT =>
      (true, { st3 with partitions := st3.partitions ++ entriesGpt image sector_size })
    | PartitionType.UNKNOWN => (false, st3)

/-- Modelled from the spec: decoding of one GPT entry record as §4.3 words it,
for comparison with `decodeGptRecord`.  The only differences from the code are
the claimed ones: the name field is the bytes at offset 56 of length
`entry_size - 56`, and the caller checks the record length against the
declared `entry_size`. -/
def specDecodeGptRecord (entry_size : Nat) (entry_data : List Nat)
    (partition_num sector_size : Nat) : Option PartitionEntry :=
  let partition_type_guid := slice entry_data 0 16
  if partition_type_guid.all (· == 0) then none
  else
    let partition_guid := slice entry_data 16 16
    let first_lba := leVal (slice entry_data 32 8)
    let last_lba := leVal (slice entry_data 40 8)
    let attributes := leVal (slice entry_data 48 8)
    let partition_name := utf16leString (slice entry_data 56 (entry_size - 56))
    if first_lba = 0 then none
    else
      let num_sectors : Int := (last_lba : Int) - (first_lba : Int) + 1
      let size_bytes : Int := num_sectors * (sector_size : Int)
      some {
        number := partition_num
        type := getGptPartitionType partition_type_guid
        type_code := 0
        start_sector := first_lba
        size_sectors := num_sectors
        end_sector := (last_lba : Int)
        size_bytes := size_bytes
        size_human := bytesToHuman size_bytes
        guid := hexlify partition_guid
        name := partition_name
        attributes := attributes }

/-- Modelled from the spec: the §4.3 walk over the entry array, stopping when
fewer bytes remain than one full record of the declared size. -/
def specGptWalk (image : List Nat) (table_off entry_size sector_size : Nat) :
    Nat → Nat → Nat → List PartitionEntry
  | 0, _, _ => []
  | n + 1, i, partition_num =>
    let entry_data := slice image (table_off + i * entry_size) entry_size
    if entry_data.length < entry_size then []
    else
      match specDecodeGptRecord entry_size entry_data partition_num sector_size with
      | none => specGptWalk image table_off entry_size sector_size n (i + 1) partition_num
      | some e =>
        e :: specGptWalk image table_off entry_size sector_size n (i + 1) (partition_num + 1)

/-- Modelled from the spec: the §4.3 GPT entry-array decoding, honoring the
declared entry size both for stepping and for the short-read check. -/
def specEntriesGpt (image : List Nat) (sector_size : Nat) : List PartitionEntry :=
  if (gptHeader image sector_size).length < 92 then []
  else
    specGptWalk image (gptEntriesLba image sector_size * sector_size)
      (gptDeclaredEntrySize image sector_size) sector_size
      (gptNumEntries image sector_size) 0 1

/-! ### Concrete inputs for the claims -/

/-- 4-byte little-endian encoding of `n < 2^32`. -/
def le4 (n : Nat) : List Nat :=
  [n % 256, n / 256 % 256, n / 65536 % 256, n / 16777216 % 256]

/-- 8-byte little-endian encoding of `n < 2^64`. -/
def le8 (n : Nat) : List Nat :=
  le4 (n % 4294967296) ++ le4 (n / 4294967296)

/-- A 16-byte MBR slot with zero CHS fields. -/
def mbrSlot (status type_code lba sectors : Nat) : List Nat :=
  [status, 0, 0, 0, type_code, 0, 0, 0] ++ le4 lba ++ le4 sectors

/-- The all-zero (empty-sentinel) MBR slot. -/
def emptySlot : List Nat := List.replicate 16 0

/-- A 512-byte sector: zero boot code, four 16-byte slots, boot signature. -/
def mkMbrSector (s0 s1 s2 s3 : List Nat) : List Nat :=
  List.replicate 446 0 ++ s0 ++ s1 ++ s2 ++ s3 ++ [0x55, 0xAA]

/-- Slots `[empty, X, empty, Y]` (claim C1). -/
def c1Sector : List Nat :=
  mkMbrSector emptySlot (mbrSlot 0 0x83 100 10) emptySlot (mbrSlot 0 0x07 200 20)

/-- A 1024-byte image whose sector 0 lacks the boot signature and whose
bytes 512..520 are `EFI PART` (claims C2 and C3). -/
def efiPartImage1024 : List Nat :=
  List.replicate 512 0 ++ asciiEfiPart ++ List.replicate 504 0

/-- A protective-MBR sector: boot signature plus slot-0 type `0xEE`. -/
def protectiveSector : List Nat :=
  mkMbrSector (mbrSlot 0 0xEE 1 1) emptySlot emptySlot emptySlot

/-- One slot `{type=0x83, lba_start=2048, sectors=0}` (claim C4). -/
def c4Sector : List Nat :=
  mkMbrSector (mbrSlot 0 0x83 2048 0) emptySlot emptySlot emptySlot

/-- A 600-byte image: protective MBR sector 0, then only 88 further bytes, so
the GPT header read falls short of 92 bytes (claim C5). -/
def c5Image : List Nat := protectiveSector ++ List.replicate 88 0

/-- A 512-byte GPT header block declaring `partition_entries_lba`,
`num_partition_entries` and `partition_entry_size`. -/
def gptHeaderBytes (lba count esize : Nat) : List Nat :=
  List.replicate 72 0 ++ le8 lba ++ le4 count ++ le4 esize ++ le4 0 ++ List.replicate 420 0

/-- A valid 64-byte GPT record: non-zero type GUID, `first_lba = last_lba = 1`. -/
def c6Record64 : List Nat :=
  1 :: List.replicate 15 0 ++ List.replicate 16 0 ++ le8 1 ++ le8 1 ++ le8 0 ++
    List.replicate 8 0

/-- Image with a GPT header declaring one 64-byte entry, followed by exactly
that 64-byte record (claim C6). -/
def c6Image : List Nat :=
  List.replicate 512 0 ++ gptHeaderBytes 2 1 64 ++ c6Record64

/-- A valid 128-byte GPT record: non-zero type GUID, `first_lba = last_lba = 1`. -/
def gptRecord128 : List Nat :=
  1 :: List.replicate 15 0 ++ List.replicate 16 0 ++ le8 1 ++ le8 1 ++ le8 0 ++
    List.replicate 72 0

/-- Image with a GPT header declaring one 128-byte entry, followed by that
record (witness input for claim C6). -/
def c6wImage : List Nat :=
  List.replicate 512 0 ++ gptHeaderBytes 2 1 128 ++ gptRecord128

/-- The spec's §8 round-trip sector: one slot
`{status=0x80, type=0x83, lba_start=2048, sectors=204800}` (claim C7). -/
def c7Sector : List Nat :=
  mkMbrSector (mbrSlot 0x80 0x83 2048 204800) emptySlot emptySlot emptySlot

/-- A one-partition MBR image for the idempotence claim (claim C8). -/
def c8Image : List Nat :=
  mkMbrSector (mbrSlot 0x80 0x0B 64 100) emptySlot emptySlot emptySlot

/-- A 16-byte GUID matching no catalog entry (claim C9). -/
def c9Guid : List Nat := [1, 2, 3, 4] ++ List.replicate 12 0

/-- The partition type held by the analyzer after `_detect_partition_type`
ran on the first read: the detected type, or the previous one when detection
recognizes nothing. -/
def postType (st : AnalyzerState) (image : List Nat) (sector_size : Nat) : PartitionType :=
  (detectPartitionType (image.take sector_size)).getD st.partition_type

/-- The entries one `analyze` call appends to `self.partitions`. -/
def newEntries (st : AnalyzerState) (image : List Nat) (sector_size : Nat) :
    List PartitionEntry :=
  if (image.take sector_size).length < sector_size ∨ sector_size < 512 then []
  else
    match postType st image sector_size with
    | PartitionType.MBR => entriesMbr (image.take sector_size) sector_size
    | PartitionType.GPT => entriesGpt image sector_size
    | PartitionType.UNKNOWN => []

/-! ### Helper lemmas -/

/-- `round2` on a rational whose hundredfold is the integer `m` is `m`. -/
theorem round2_intCast (m : ℤ) (q : ℚ) (h : q * 100 = m) : round2 q = m := by
  unfold round2
  rw [h]
  simp

/-- `format2` on a rational worth `m` hundredths (`m : ℕ`) prints `m` as a
two-decimal fixed-point number. -/
theorem format2_eq (q : ℚ) (m : ℕ) (h : q * 100 = (m : ℤ)) : format2 q = format2Nat m := by
  unfold format2
  rw [round2_intCast m q (by exact_mod_cast h)]
  simp

/-- `round2` rounds down when the hundredfold sits in the lower half of the
interval `[m, m + 1)`. -/
theorem round2_eq_low (q : ℚ) (m : ℤ) (h1 : (m : ℚ) ≤ q * 100)
    (h2 : q * 100 < (m : ℚ) + 1 / 2) : round2 q = m := by
  unfold round2
  dsimp only
  have hf : Int.floor (q * 100) = m := by
    rw [Int.floor_eq_iff]
    exact ⟨h1, by linarith⟩
  rw [hf, if_pos (by linarith)]

/-- `round2` rounds up when the hundredfold sits strictly in the upper half
of the interval `[m, m + 1)`. -/
theorem round2_eq_high (q : ℚ) (m : ℤ) (h1 : (m : ℚ) + 1 / 2 < q * 100)
    (h2 : q * 100 < (m : ℚ) + 1) : round2 q = m + 1 := by
  unfold round2
  dsimp only
  have hf : Int.floor (q * 100) = m := by
    rw [Int.floor_eq_iff]
    exact ⟨by linarith, by linarith⟩
  rw [hf, if_neg (by linarith), if_pos (by linarith)]

/-- `format2` on a nonnegative value whose hundredfold sits in the lower half
of `[m, m + 1)`. -/
theorem format2_eq_low (q : ℚ) (m : ℕ) (h1 : (m : ℚ) ≤ q * 100)
    (h2 : q * 100 < (m : ℚ) + 1 / 2) : format2 q = format2Nat m := by
  unfold format2
  dsimp only
  rw [round2_eq_low q (m : ℤ) (by push_cast; exact h1) (by push_cast; linarith)]
  simp

/-- `format2` on a nonnegative value whose hundredfold sits strictly in the
upper half of `[m, m + 1)`. -/
theorem format2_eq_high (q : ℚ) (m : ℕ) (h1 : (m : ℚ) + 1 / 2 < q * 100)
    (h2 : q * 100 < (m : ℚ) + 1) : format2 q = format2Nat (m + 1) := by
  unfold format2
  dsimp only
  rw [round2_eq_high q (m : ℤ) (by push_cast; linarith) (by push_cast; linarith)]
  have hpos : ¬((m : ℤ) + 1 < 0) := by omega
  rw [if_neg hpos, show ((m : ℤ) + 1).toNat = m + 1 from by omega]

/-- Integers up to `2 ^ 53` are exactly representable: the conversion to
double does not round them. -/
theorem floatDouble_exact (n : ℕ) (h : n ≤ 2 ^ 53) : floatDouble n = n := by
  rcases Nat.lt_or_ge n (2 ^ 53) with hlt | hge
  · have hu : ulpAux n n = 1 := by
      cases n with
      | zero => rfl
      | succ m =>
        simp only [ulpAux]
        split
        · rfl
        · omega
    unfold floatDouble
    rw [hu]
    simp [roundToMultiple]
    exact fun hcon => absurd (Nat.mod_one n) hcon
  · have heq : n = 2 ^ 53 := le_antisymm h hge
    subst heq
    decide

/-- The unit loop stops at the first unit whose magnitude is below 1024, or
falls through to `PB` after the supplied units. -/
theorem bytesToHumanGo_spec (us : List String) : ∀ v : ℚ,
    ∃ k, k ≤ us.length ∧
      bytesToHumanGo v us = format2 (v / 1024 ^ k) ++ " " ++ ((us ++ ["PB"]).getD k "") ∧
      (∀ j, j < k → 1024 ≤ v / 1024 ^ j) ∧
      (k = us.length ∨ v / 1024 ^ k < 1024) := by
  induction us with
  | nil =>
    intro v
    refine ⟨0, by simp, ?_, by simp, Or.inl rfl⟩
    show format2 v ++ " PB" = format2 (v / 1024 ^ 0) ++ " " ++ "PB"
    rw [pow_zero, div_one, String.append_assoc]
    rfl
  | cons u us ih =>
    intro v
    by_cases h : v < 1024
    · refine ⟨0, by simp, ?_, by simp, Or.inr (by simpa using h)⟩
      simp [bytesToHumanGo, h]
    · obtain ⟨k, hk, heq, hge, hstop⟩ := ih (v / 1024)
      have hdiv : ∀ j : ℕ, v / 1024 / 1024 ^ j = v / 1024 ^ (j + 1) := by
        intro j
        rw [div_div, ← pow_succ']
      refine ⟨k + 1, by simpa using hk, ?_, ?_, ?_⟩
      · rw [show bytesToHumanGo v (u :: us) = bytesToHumanGo (v / 1024) us by
          simp [bytesToHumanGo, h]]
        rw [heq, hdiv]
        rfl
      · intro j hj
        cases j with
        | zero => simpa using le_of_not_lt h
        | succ j' =>
          rw [← hdiv]
          exact hge j' (by omega)
      · rcases hstop with h1 | h2
        · exact Or.inl (by simp [h1])
        · exact Or.inr (by rw [← hdiv]; exact h2)

/-- Mapping a projection over a `filterMap` when the projection of each
produced value is determined by the input element. -/
theorem map_filterMap_eq {α β γ : Type} (g : α → Option β) (f : β → γ) (h : α → γ)
    (H : ∀ x y, g x = some y → f y = h x) :
    ∀ l : List α, (l.filterMap g).map f = (l.filter fun x => (g x).isSome).map h := by
  intro l
  induction l with
  | nil => simp
  | cons a t ih =>
    cases hg : g a with
    | none => simp [List.filterMap_cons, List.filter_cons, hg, ih]
    | some b => simp [List.filterMap_cons, List.filter_cons, hg, ih, H a b hg]

/-- An MBR slot that decodes at all carries `number = slot index + 1`. -/
theorem parseMbrSlot_number (sector : List Nat) (ss i : Nat) (e : PartitionEntry)
    (h : parseMbrSlot sector ss i = some e) : e.number = i + 1 := by
  unfold parseMbrSlot at h
  dsimp only at h
  split at h
  · exact absurd h (by simp)
  · split at h
    · exact absurd h (by simp)
    · cases h
      rfl

/-- The head of a non-empty list is a member. -/
theorem headI_mem {α : Type} [Inhabited α] {l : List α} (h : l ≠ []) : l.headI ∈ l := by
  cases l with
  | nil => exact absurd rfl h
  | cons a t => exact List.mem_cons_self a t

/-! ### Claims -/

/-- C7 (confirmed): for the crafted 512-byte sector with one slot
`{status=0x80, type=0x83, lba_start=2048, sectors=204800}` and the other
three zeroed, MBR decoding emits exactly one entry, with `index = 1`,
`is_active = true`, `kind` containing "Linux", `end_lba = 206847` and
`size_bytes = 204800 * 512`. -/
theorem C7_mbr_roundtrip :
    ((entriesMbr c7Sector 512).map fun e =>
        (e.number, e.is_active, e.end_sector, e.size_bytes))
      = [(1, true, 206847, 204800 * 512)] ∧
    ∃ a b, (entriesMbr c7Sector 512).map PartitionEntry.type = [a ++ "Linux" ++ b] := by
  refine ⟨by decide, "", " Native", by decide⟩

/-- C9 (counterexample): the code's unmatched-MBR-code label is the Russian
`"Неизвестный (0xNN)"`, not the claimed literal `"Unknown (0xNN)"`. -/
theorem C9_counterexample :
    getPartitionDescription 0x99 ≠ "Unknown (0x99)" ∧
    getPartitionDescription 0x99 = "Неизвестный (0x99)" := by
  decide

/-- C9 (corrected): catalog lookups are total and never fail; an unmatched
MBR code resolves to `"Неизвестный (0xNN)"` (Russian for unknown) embedding
the raw code as two upper-case hex digits, and an unmatched GPT GUID
resolves to `"Unknown GUID (XXXXXXXX...)"` embedding the upper-case hex of
its first 4 bytes. -/
theorem C9_catalog_fallback :
    (∀ type_code : Nat, type_code < 256 → partitionTypes.lookup type_code = none →
        getPartitionDescription type_code = "Неизвестный (0x" ++ hex2 type_code ++ ")") ∧
    (∀ guid_bytes : List Nat, gptTypes.lookup (hexlifyUpper guid_bytes) = none →
        getGptPartitionType guid_bytes =
          "Unknown GUID (" ++ (hexlifyUpper guid_bytes).take 8 ++ "...)") := by
  constructor
  · intro type_code _ h
    simp [getPartitionDescription, h]
  · intro guid_bytes h
    simp [getGptPartitionType, h]

/-- C9 (witness): the fallbacks at the concrete unmatched code `0x99` and the
concrete unmatched GUID `c9Guid`. -/
theorem C9_witness :
    getPartitionDescription 0x99 = "Неизвестный (0x" ++ hex2 0x99 ++ ")" ∧
    getGptPartitionType c9Guid =
      "Unknown GUID (" ++ (hexlifyUpper c9Guid).take 8 ++ "...)" :=
  ⟨C9_catalog_fallback.1 0x99 (by decide) (by decide),
   C9_catalog_fallback.2 c9Guid (by decide)⟩

/-- C10 (counterexample): at the byte count 9024087753343631 (below
`1024 ^ 6`), the program's initial int-to-double conversion rounds the count
up to 9024087753343632 and prints "8.02 PB", while exact repeated division of
the byte count by 1024 followed by two-decimal formatting — the behavior the
claim describes — yields "8.01 PB". -/
theorem C10_counterexample :
    (9024087753343631 : ℕ) < 1024 ^ 6 ∧
    bytesToHumanFloat 9024087753343631 = "8.02 PB" ∧
    format2 ((9024087753343631 : ℚ) / 1024 ^ 5) ++ " PB" = "8.01 PB" ∧
    bytesToHumanFloat 9024087753343631 ≠
      format2 ((9024087753343631 : ℚ) / 1024 ^ 5) ++ " PB" := by
  have hfd : floatDouble 9024087753343631 = 9024087753343632 := by decide
  have hprog : bytesToHumanFloat 9024087753343631 =
      format2 ((9024087753343632 : ℚ) / 1024 ^ 5) ++ " PB" := by
    unfold bytesToHumanFloat
    rw [hfd]
    norm_num [bytesToHumanGo]
  have hprog2 : bytesToHumanFloat 9024087753343631 = "8.02 PB" := by
    rw [hprog, format2_eq_high ((9024087753343632 : ℚ) / 1024 ^ 5) 801
      (by norm_num) (by norm_num)]
    decide
  have hexact : format2 ((9024087753343631 : ℚ) / 1024 ^ 5) ++ " PB" = "8.01 PB" := by
    rw [format2_eq_low ((9024087753343631 : ℚ) / 1024 ^ 5) 801
      (by norm_num) (by norm_num)]
    decide
  refine ⟨by norm_num, hprog2, hexact, ?_⟩
  rw [hprog2, hexact]
  decide

/-- C10 (corrected): the size formatter divides the double-precision value of
the byte count repeatedly by 1024 across the units B, KB, MB, GB, TB, PB,
stopping at the first unit whose remaining magnitude is below 1024 and
formatting with two decimal places; the byte count itself is rounded to 53
significant bits by the int-to-float conversion, which is exact for every
count up to `2 ^ 53` — in particular the chain is exact on the four examples:
0 renders "0.00 B", 1024 renders "1.00 KB", 1536 renders "1.50 KB" and
`1024 ^ 3` renders "1.00 GB". -/
theorem C10_size_formatter :
    (bytesToHumanFloat 0 = "0.00 B" ∧ bytesToHumanFloat 1024 = "1.00 KB" ∧
     bytesToHumanFloat 1536 = "1.50 KB" ∧ bytesToHumanFloat (1024 ^ 3) = "1.00 GB") ∧
    (∀ n : ℕ, n ≤ 2 ^ 53 → floatDouble n = n) ∧
    (∀ n : ℕ, floatDouble n < 1024 ^ 6 →
      ∃ k, k ≤ 5 ∧
        bytesToHumanFloat n =
          format2 ((floatDouble n : ℚ) / 1024 ^ k) ++ " " ++
            (["B", "KB", "MB", "GB", "TB", "PB"].getD k "") ∧
        (floatDouble n : ℚ) / 1024 ^ k < 1024 ∧
        ∀ j, j < k → 1024 ≤ (floatDouble n : ℚ) / 1024 ^ j) := by
  refine ⟨⟨?_, ?_, ?_, ?_⟩, floatDouble_exact, ?_⟩
  · unfold bytesToHumanFloat
    rw [show floatDouble 0 = 0 from by decide]
    norm_num [bytesToHumanGo]
    rw [format2_eq 0 0 (by norm_num)]
    decide
  · unfold bytesToHumanFloat
    rw [show floatDouble 1024 = 1024 from by decide]
    norm_num [bytesToHumanGo]
    rw [format2_eq 1 100 (by norm_num)]
    decide
  · unfold bytesToHumanFloat
    rw [show floatDouble 1536 = 1536 from by decide]
    norm_num [bytesToHumanGo]
    rw [format2_eq (3 / 2) 150 (by norm_num)]
    decide
  · unfold bytesToHumanFloat
    rw [show floatDouble (1024 ^ 3) = 1024 ^ 3 from by decide]
    norm_num [bytesToHumanGo]
    rw [format2_eq 1 100 (by norm_num)]
    decide
  · intro n hn
    obtain ⟨k, hk, heq, hge, hstop⟩ :=
      bytesToHumanGo_spec ["B", "KB", "MB", "GB", "TB"] ((floatDouble n : ℚ))
    refine ⟨k, by simpa using hk, ?_, ?_, hge⟩
    · rw [show bytesToHumanFloat n
          = bytesToHumanGo ((floatDouble n : ℚ)) ["B", "KB", "MB", "GB", "TB"] from rfl, heq]
      rfl
    · rcases hstop with h5 | hlt
      · have h5' : k = 5 := by simpa using h5
        subst h5'
        have hpos : (0 : ℚ) < 1024 ^ 5 := by positivity
        rw [div_lt_iff₀ hpos]
        calc ((floatDouble n : ℚ)) < ((1024 ^ 6 : ℕ) : ℚ) := by exact_mod_cast hn
        _ = 1024 * 1024 ^ 5 := by norm_num
      · exact hlt

/-- C10 (witness): the exact conversion and the general stopping property
instantiated at 1536 bytes. -/
theorem C10_witness :
    floatDouble 1536 = 1536 ∧
    ∃ k, k ≤ 5 ∧
      bytesToHumanFloat 1536 =
        format2 ((floatDouble 1536 : ℚ) / 1024 ^ k) ++ " " ++
          (["B", "KB", "MB", "GB", "TB", "PB"].getD k "") ∧
      (floatDouble 1536 : ℚ) / 1024 ^ k < 1024 ∧
      ∀ j, j < k → 1024 ≤ (floatDouble 1536 : ℚ) / 1024 ^ j :=
  ⟨C10_size_formatter.2.1 1536 (by norm_num),
   C10_size_formatter.2.2 1536 (by decide)⟩

/-- C3 (counterexample): the protective-MBR sector and a plain-GPT first read
are classified by the very same enumeration value `PartitionType.GPT` — the
code has no distinct `GPT_with_protective_MBR` table type. -/
theorem C3_counterexample :
    detectPartitionType protectiveSector = some PartitionType.GPT ∧
    detectPartitionType efiPartImage1024 = some PartitionType.GPT := by
  decide

/-- C3 (corrected): every sector 0 with the `55 AA` signature and entry-0 type
byte `0xEE` is classified as `PartitionType.GPT`, the same member that plain
GPT detection yields; only the printed message mentions the protective MBR. -/
theorem C3_protective_detection (sector : List Nat)
    (h510 : sector.getD 510 0 = 0x55) (h511 : sector.getD 511 0 = 0xAA)
    (h450 : sector.getD 450 0 = 0xEE) :
    detectPartitionType sector = some PartitionType.GPT := by
  simp only [detectPartitionType, h510, h511, h450]
  norm_num

/-- C3 (witness): the protective detection at the concrete sector. -/
theorem C3_witness : detectPartitionType protectiveSector = some PartitionType.GPT :=
  C3_protective_detection protectiveSector (by decide) (by decide) (by decide)

/-- C1 (counterexample): the table with slots `[empty, X, empty, Y]` numbers
its two emitted entries 2 and 4 — not sequentially 1 and 2 as claimed. -/
theorem C1_counterexample :
    (entriesMbr c1Sector 512).map PartitionEntry.number = [2, 4] ∧
    (entriesMbr c1Sector 512).map PartitionEntry.number ≠ [1, 2] := by
  decide

/-- C1 (corrected): the MBR decoder skips empty slots (they are never
emitted), but numbers each emitted entry by its slot position (`slot index
+ 1`) rather than sequentially over emitted entries: the emitted numbers are
exactly the 1-based indices of the non-empty slots. -/
theorem C1_mbr_numbering (sector : List Nat) (sector_size : Nat) :
    (entriesMbr sector sector_size).map PartitionEntry.number
      = ((List.range 4).filter fun i => (parseMbrSlot sector sector_size i).isSome).map
          (· + 1) :=
  map_filterMap_eq _ _ _
    (fun i e he => parseMbrSlot_number sector sector_size i e he) (List.range 4)

/-- A decoded MBR slot is never the empty sentinel, and its start/end LBAs
are ordered exactly when its encoded sector count is positive. -/
theorem parseMbrSlot_inv (sector : List Nat) (ss i : Nat) (e : PartitionEntry)
    (h : parseMbrSlot sector ss i = some e) :
    ¬(e.type_code = 0 ∧ e.start_sector = 0) ∧
    ((e.start_sector : Int) ≤ e.end_sector ↔ 1 ≤ e.size_sectors) := by
  unfold parseMbrSlot at h
  dsimp only at h
  split at h
  · exact absurd h (by simp)
  · split at h
    · exact absurd h (by simp)
    · rename_i hne
      cases h
      refine ⟨by simpa using hne, ?_⟩
      dsimp
      omega

/-- A decoded GPT record has a non-zero type GUID, a positive first LBA, and
ordered LBAs exactly when its sector count is positive. -/
theorem decodeGptRecord_inv (entry_data : List Nat) (pnum ss : Nat) (e : PartitionEntry)
    (h : decodeGptRecord entry_data pnum ss = some e) :
    (slice entry_data 0 16).all (· == 0) = false ∧ 1 ≤ e.start_sector ∧
    ((e.start_sector : Int) ≤ e.end_sector ↔ 1 ≤ e.size_sectors) := by
  unfold decodeGptRecord at h
  dsimp only at h
  split at h
  · exact absurd h (by simp)
  · rename_i hzero
    split at h
    · exact absurd h (by simp)
    · rename_i hfst
      cases h
      refine ⟨by simpa using hzero, ?_, ?_⟩
      · dsimp
        omega
      · dsimp
        omega

/-- Every entry produced by the GPT walk comes from a decoded record. -/
theorem gptWalk_mem (image : List Nat) (toff esz ss : Nat) :
    ∀ (n i p : Nat) (e : PartitionEntry), e ∈ gptWalk image toff esz ss n i p →
      ∃ data pnum, decodeGptRecord data pnum ss = some e := by
  intro n
  induction n with
  | zero =>
    intro i p e he
    simp [gptWalk] at he
  | succ n ih =>
    intro i p e he
    simp only [gptWalk] at he
    split at he
    · simp at he
    · split at he
      · exact ih _ _ _ he
      · rename_i e' hsome
        rcases List.mem_cons.mp he with h1 | h2
        · rw [← h1] at hsome
          exact ⟨slice image (toff + i * esz) esz, p, hsome⟩
        · exact ih _ _ _ h2

/-- C4 (corrected): empty-sentinel slots are never materialized (an MBR entry
never has both `type_code = 0` and `start_sector = 0`; a GPT record with
all-zero type GUID never decodes, and a decoded one has `first_lba ≥ 1`);
and a materialized entry satisfies `start_lba ≤ end_lba` exactly when its
encoded sector count is at least 1 — the code does not reject entries whose
encoded length is zero. -/
theorem C4_entry_invariants :
    (∀ (sector : List Nat) (sector_size : Nat), ∀ e ∈ entriesMbr sector sector_size,
        ¬(e.type_code = 0 ∧ e.start_sector = 0) ∧
        ((e.start_sector : Int) ≤ e.end_sector ↔ 1 ≤ e.size_sectors)) ∧
    (∀ (entry_data : List Nat) (partition_num sector_size : Nat) (e : PartitionEntry),
        decodeGptRecord entry_data partition_num sector_size = some e →
        (slice entry_data 0 16).all (· == 0) = false ∧ 1 ≤ e.start_sector ∧
        ((e.start_sector : Int) ≤ e.end_sector ↔ 1 ≤ e.size_sectors)) ∧
    (∀ (image : List Nat) (sector_size : Nat), ∀ e ∈ entriesGpt image sector_size,
        1 ≤ e.start_sector ∧
        ((e.start_sector : Int) ≤ e.end_sector ↔ 1 ≤ e.size_sectors)) := by
  refine ⟨?_, ?_, ?_⟩
  · intro sector sector_size e he
    obtain ⟨i, _, hi⟩ := List.mem_filterMap.mp he
    exact parseMbrSlot_inv sector sector_size i e hi
  · intro entry_data partition_num sector_size e h
    exact decodeGptRecord_inv entry_data partition_num sector_size e h
  · intro image sector_size e he
    unfold entriesGpt at he
    split at he
    · simp at he
    · obtain ⟨data, pnum, hd⟩ := gptWalk_mem image _ _ sector_size _ _ _ e he
      exact (decodeGptRecord_inv data pnum sector_size e hd).2

/-- C4 (counterexample): the sector whose only slot encodes
`{type=0x83, lba_start=2048, sectors=0}` materializes an entry with
`start_sector = 2048`, `end_sector = 2047` and `size_sectors = 0`, violating
both `start_lba ≤ end_lba` and `sector_count ≥ 1`. -/
theorem C4_counterexample :
    ((entriesMbr c4Sector 512).map fun e => (e.start_sector, e.end_sector, e.size_sectors))
      = [(2048, 2047, 0)] ∧
    ¬((2048 : Int) ≤ 2047 ∧ (1 : Int) ≤ 0) :=
  ⟨by decide, by decide⟩

/-- C4 (witness): the invariants instantiated at the decoded entries of the
concrete MBR sector `c7Sector` and the concrete GPT image `c6wImage`. -/
theorem C4_witness :
    (¬(((entriesMbr c7Sector 512).headI).type_code = 0 ∧
        ((entriesMbr c7Sector 512).headI).start_sector = 0) ∧
      ((((entriesMbr c7Sector 512).headI).start_sector : Int) ≤
          ((entriesMbr c7Sector 512).headI).end_sector ↔
        1 ≤ ((entriesMbr c7Sector 512).headI).size_sectors)) ∧
    (1 ≤ ((entriesGpt c6wImage 512).headI).start_sector ∧
      ((((entriesGpt c6wImage 512).headI).start_sector : Int) ≤
          ((entriesGpt c6wImage 512).headI).end_sector ↔
        1 ≤ ((entriesGpt c6wImage 512).headI).size_sectors)) :=
  ⟨C4_entry_invariants.1 c7Sector 512 _ (headI_mem (by decide)),
   C4_entry_invariants.2.2 c6wImage 512 _ (headI_mem (by decide))⟩

/-- C2 (code_bug): the concrete 1024-byte image lacks the boot signature in
sector 0 and carries `EFI PART` at bytes 512..520, yet detection — run on the
first read of `sector_size = 512` bytes, exactly as `analyze` runs it —
slices `[0x200:0x208]` out of that 512-byte buffer (an empty slice), matches
nothing, and `analyze` returns `False` instead of classifying GPT. -/
theorem C2_gpt_detection_bug :
    slice efiPartImage1024 512 8 = asciiEfiPart ∧
    ¬(efiPartImage1024.getD 510 0 = 0x55 ∧ efiPartImage1024.getD 511 0 = 0xAA) ∧
    detectPartitionType (efiPartImage1024.take 512) = none ∧
    (analyze initState efiPartImage1024 512).1 = false :=
  ⟨by decide, by decide, by decide, by decide⟩

/-- C5 (counterexample): for the 600-byte image whose GPT header read yields
only 88 bytes, `analyze` returns `True` — a successful result with an empty
partition list — rather than failing. -/
theorem C5_counterexample :
    (gptHeader c5Image 512).length < 92 ∧
    (analyze initState c5Image 512).1 = true ∧
    (analyze initState c5Image 512).2.partitions = [] :=
  ⟨by decide, by decide, by decide⟩

/-- C5 (corrected): when the header read at byte offset `sector_size` yields
fewer than 92 bytes, the GPT decoder stops and emits no entries (the printed
error is the only report), but `analyze` still returns overall success
(`True`) with an empty partition list — it does not fail. -/
theorem C5_short_header (image : List Nat) (sector_size : Nat)
    (h512 : 512 ≤ sector_size) (hlen : sector_size ≤ image.length)
    (hdet : detectPartitionType (image.take sector_size) = some PartitionType.GPT)
    (hshort : (gptHeader image sector_size).length < 92) :
    (analyze initState image sector_size).1 = true ∧
    (analyze initState image sector_size).2.partitions = [] := by
  have htake : (image.take sector_size).length = sector_size := by
    rw [List.length_take]
    omega
  have h2 : ¬sector_size < 512 := by omega
  have hgpt : entriesGpt image sector_size = [] := by
    unfold entriesGpt
    rw [if_pos hshort]
  constructor <;>
    simp [analyze, htake, h2, hdet, hgpt, apply_ite, initState]

/-- C5 (witness): the short-header behavior at the concrete 600-byte image. -/
theorem C5_witness :
    (analyze initState c5Image 512).1 = true ∧
    (analyze initState c5Image 512).2.partitions = [] :=
  C5_short_header c5Image 512 (by decide) (by decide) (by decide) (by decide)

/-- C8 (counterexample): calling `analyze` twice on the same analyzer over
the same unchanged bytes does not yield equal results — the second call's
partition list has the first call's entries twice. -/
theorem C8_counterexample :
    (analyze initState c8Image 512).2.partitions.length = 1 ∧
    (analyze (analyze initState c8Image 512).2 c8Image 512).2.partitions.length = 2 :=
  ⟨by decide, by decide⟩

/-- One `analyze` call appends the pure decode of the bytes to the existing
partition list and updates the partition type only through detection. -/
theorem analyze_state (st : AnalyzerState) (image : List Nat) (sector_size : Nat) :
    (analyze st image sector_size).2.partitions
        = st.partitions ++ newEntries st image sector_size ∧
    (analyze st image sector_size).2.partition_type
        = (if (image.take sector_size).length < sector_size ∨ sector_size < 512 then
            st.partition_type
          else postType st image sector_size) := by
  unfold analyze newEntries postType
  by_cases h1 : image.length < sector_size
  · simp [List.length_take, h1]
  · by_cases h2 : sector_size < 512
    · simp [List.length_take, h1, h2]
    · cases hdet : detectPartitionType (image.take sector_size) with
      | none =>
        cases htp : st.partition_type <;>
          simp [List.length_take, h1, h2, hdet, htp, apply_ite]
      | some t =>
        cases t <;> simp [List.length_take, h1, h2, hdet, apply_ite]

/-- C8 (corrected): a decode pass is a pure function of the bytes appended
onto whatever `self.partitions` already holds — `analyze` never resets the
list — so running `analyze` twice on the same analyzer duplicates the
entries (the second result is the first's partitions appended to
themselves), while decodes from freshly constructed analyzers coincide. -/
theorem C8_no_reset (image : List Nat) (sector_size : Nat) :
    (analyze (analyze initState image sector_size).2 image sector_size).2.partitions
      = (analyze initState image sector_size).2.partitions ++
        (analyze initState image sector_size).2.partitions := by
  have hA := analyze_state initState image sector_size
  have hB := analyze_state (analyze initState image sector_size).2 image sector_size
  have hsame : newEntries (analyze initState image sector_size).2 image sector_size
      = newEntries initState image sector_size := by
    suffices hpt : postType (analyze initState image sector_size).2 image sector_size
        = postType initState image sector_size by
      unfold newEntries
      rw [hpt]
    unfold postType
    cases hdet : detectPartitionType (image.take sector_size) with
    | some t => rfl
    | none =>
      simp only [Option.getD_none]
      rw [hA.2]
      split
      · rfl
      · rename_i hok
        unfold postType
        rw [hdet, Option.getD_none]
  rw [hB.1, hA.1, hsame]
  simp [initState]

/-- With the standard declared entry size 128, the spec-modelled record
decoding and the code's record decoding coincide (the name slice
`56 .. 56 + (128 - 56)` is `56 .. 128`). -/
theorem specDecodeGptRecord_128 (entry_data : List Nat) (pnum ss : Nat) :
    specDecodeGptRecord 128 entry_data pnum ss = decodeGptRecord entry_data pnum ss := rfl

/-- With the standard declared entry size 128, the spec-modelled walk and the
code's walk coincide. -/
theorem specGptWalk_128 (image : List Nat) (toff ss : Nat) :
    ∀ n i p, specGptWalk image toff 128 ss n i p = gptWalk image toff 128 ss n i p := by
  intro n
  induction n with
  | zero =>
    intro i p
    rfl
  | succ n ih =>
    intro i p
    simp only [specGptWalk, gptWalk, specDecodeGptRecord_128, ih]

/-- C6 (corrected): the decoder does advance through the entry array by the
header-declared `partition_entry_size`, but its short-read check compares
each record against the hard-coded 128 bytes and it always decodes the name
from record bytes 56..128; when the declared size is the standard 128 this
coincides with the claimed behavior (the spec-modelled decoder). -/
theorem C6_declared_entry_size (image : List Nat) (sector_size : Nat)
    (h : gptDeclaredEntrySize image sector_size = 128) :
    entriesGpt image sector_size = specEntriesGpt image sector_size := by
  unfold entriesGpt specEntriesGpt
  rw [h]
  split
  · rfl
  · exact (specGptWalk_128 image _ sector_size _ 0 1).symm

/-- C6 (counterexample): an image whose header declares 64-byte entries and
whose array holds one fully valid 64-byte record decodes to nothing — the
hard-coded `< 128` short-read check discards it — while the spec-modelled
decoder, honoring the declared size, decodes one entry. -/
theorem C6_counterexample :
    entriesGpt c6Image 512 = [] ∧
    gptDeclaredEntrySize c6Image 512 = 64 ∧
    (specEntriesGpt c6Image 512).length = 1 :=
  ⟨by decide, by decide, by decide⟩

/-- C6 (witness): on the concrete image declaring 128-byte entries (with one
valid record), the code and the spec-modelled decoder agree. -/
theorem C6_witness :
    gptDeclaredEntrySize c6wImage 512 = 128 ∧
    entriesGpt c6wImage 512 = specEntriesGpt c6wImage 512 :=
  ⟨by decide, C6_declared_entry_size c6wImage 512 (by decide)⟩

end DiskAnalyzer
